import Mathlib

/-
Verification of the delivery engine of the newrelic-telemetry-sdk-rust
repository: a shallow embedding of `src/client.rs` (backoff policy, response
classification, the send/retry/split loop, the blocking worker's drain
policy) and of `src/span.rs` (`SpanBatch::split`), together with theorems
about the embedded definitions.

Durations are modelled as natural numbers of nanoseconds, matching Rust's
`std::time::Duration` (`u64` seconds plus sub-second nanoseconds); the
largest representable duration is `2^64 * 10^9 - 1` nanoseconds.
-/

namespace NewRelicSDK

/-- Nanoseconds per second; `Duration::from_secs s` holds `s * 10^9` ns. -/
def nanosPerSec : Nat := 1000000000

/-- Embeds `Duration::from_secs`. -/
def fromSecs (s : Nat) : Nat := s * nanosPerSec

/-- Largest value representable by `std::time::Duration`, in nanoseconds:
`u64::MAX` seconds plus `10^9 - 1` nanoseconds. -/
def durationMax : Nat := 2 ^ 64 * nanosPerSec - 1

/-- Embeds `ClientBuilder::get_backoff_sequence` (src/client.rs:305-315) with
exact arithmetic: `(0..retries_max).map(|num_retry| if num_retry == 0 { 0 }
else { backoff_factor * 2.pow(num_retry - 1) })`. The factor is in
nanoseconds. -/
def get_backoff_sequence (backoff_factor retries_max : Nat) : List Nat :=
  (List.range retries_max).map fun num_retry =>
    if num_retry = 0 then 0 else backoff_factor * 2 ^ (num_retry - 1)

/-- One element of the backoff sequence with Rust debug-build overflow
semantics: `2_u32.pow(num_retry - 1)` panics when the power exceeds
`u32::MAX`, and `Duration * u32` panics when the product exceeds the largest
representable duration. `none` models a panic. -/
def backoff_elem_checked (factor num_retry : Nat) : Option Nat :=
  if num_retry = 0 then some 0
  else if 2 ^ (num_retry - 1) < 2 ^ 32 then
    if factor * 2 ^ (num_retry - 1) ≤ durationMax then
      some (factor * 2 ^ (num_retry - 1))
    else none
  else none

/-- One element of the backoff sequence with Rust release-build overflow
semantics: `2_u32.pow` wraps modulo `2^32`, while `Duration * u32` still
panics (`none`) when the product exceeds the largest representable
duration. -/
def backoff_elem_wrapping (factor num_retry : Nat) : Option Nat :=
  if num_retry = 0 then some 0
  else if factor * (2 ^ (num_retry - 1) % 2 ^ 32) ≤ durationMax then
    some (factor * (2 ^ (num_retry - 1) % 2 ^ 32))
  else none

/-- Modelled from the spec: a saturating backoff element, as the spec's
backoff-policy section asks implementers to compute it ("saturate rather
than wrap on overflow"). Not present in the source; used only to compare
the code's overflow behaviour against the spec's words. -/
def backoff_elem_saturating (factor num_retry : Nat) : Nat :=
  if num_retry = 0 then 0
  else min (factor * 2 ^ (num_retry - 1)) durationMax

/-- Sequence a list of fallible element computations, stopping at the first
failure; models the fact that the Rust iterator evaluates elements in order
and the first panic aborts the whole computation. -/
def optionMapM (f : α → Option β) : List α → Option (List β)
  | [] => some []
  | x :: xs =>
    match f x with
    | none => none
    | some y =>
      match optionMapM f xs with
      | none => none
      | some ys => some (y :: ys)

/-- `get_backoff_sequence` with debug-build overflow checking; `none` models
a panic while computing some element. -/
def get_backoff_sequence_checked (factor retries_max : Nat) : Option (List Nat) :=
  optionMapM (backoff_elem_checked factor) (List.range retries_max)

/-- Embeds the internal enum `SendableState` (src/client.rs:329-340). The
`Retry` payload is an optional duration in nanoseconds. -/
inductive SendableState
  | Done
  | Retry (after : Option Nat)
  | Split
deriving DecidableEq, Repr

/-- An HTTP response as far as the client inspects it: status code, header
list (name/value pairs, in insertion order) and body. -/
structure Response where
  status : Nat
  headers : List (String × String)
  body : String
deriving DecidableEq, Repr

/-- ASCII lower-casing of one character. -/
def asciiLower (c : Char) : Char :=
  if 'A' ≤ c ∧ c ≤ 'Z' then Char.ofNat (c.toNat + 32) else c

/-- ASCII lower-casing of a string. -/
def lowerStr (s : String) : String := String.mk (s.data.map asciiLower)

/-- Case-insensitive header lookup, as `hyper::HeaderMap::get` performs it
(header names compare case-insensitively); returns the first matching
value. -/
def headerGet (headers : List (String × String)) (name : String) : Option String :=
  (headers.find? fun h => lowerStr h.fst = lowerStr name).map Prod.snd

/-- Numeric value of a list of ASCII digits. -/
def digitsToNat (cs : List Char) : Nat :=
  cs.foldl (fun acc c => acc * 10 + (c.toNat - 48)) 0

/-- Embeds Rust's `str::parse::<u64>`: an optional leading plus sign, then
one or more ASCII digits, with failure on any other character, on the empty
string and on overflow past `u64::MAX`. -/
def parse_u64 (s : String) : Option Nat :=
  let cs :=
    match s.data with
    | '+' :: rest => rest
    | cs => cs
  if cs ≠ [] ∧ cs.all Char.isDigit then
    if digitsToNat cs < 2 ^ 64 then some (digitsToNat cs) else none
  else none

/-- Embeds `Client::extract_retry_after` (src/client.rs:384-390): read the
`retry-after` header and parse it as `u64` seconds, converted to a
duration; `none` models the `Err` results (missing header, non-numeric or
overflowing value, non-ASCII header bytes). -/
def extract_retry_after (headers : List (String × String)) : Option Nat :=
  match headerGet headers "retry-after" with
  | some v =>
    match parse_u64 v with
    | some secs => some (fromSecs secs)
    | none => none
  | none => none

/-- Embeds `Client::process_response` (src/client.rs:458-498), following the
source's match arms in order: `200..=299` and the fixed non-retryable list
fall through to `Done`; `413` returns `Split`; `429` returns
`Retry(Some d)` when `extract_retry_after` succeeds and falls through to
`Done` when it fails; every other status hits the wildcard arm and returns
`Retry(None)`. -/
def process_response (response : Response) : SendableState :=
  let status := response.status
  if 200 ≤ status ∧ status ≤ 299 then SendableState.Done
  else if status = 400 ∨ status = 401 ∨ status = 403 ∨ status = 404 ∨
      status = 405 ∨ status = 409 ∨ status = 410 ∨ status = 411 then
    SendableState.Done
  else if status = 413 then SendableState.Split
  else if status = 429 then
    match extract_retry_after response.headers with
    | some duration => SendableState.Retry (some duration)
    | none => SendableState.Done
  else SendableState.Retry none

/-- Embeds the attribute value enum `Value` (src/attribute.rs). The float
payload is represented by its 64-bit pattern; no claim inspects float
semantics. -/
inductive Value
  | Int (i : Int)
  | UInt (u : Nat)
  | Str (s : String)
  | Float (bits : Nat)
  | Bool (b : Bool)
deriving DecidableEq, Repr

/-- Embeds `Span` (src/span.rs:14-24); the attribute map is modelled as an
association list. -/
structure Span where
  id : String
  trace_id : String
  timestamp : Nat
  attributes : List (String × Value)
deriving DecidableEq, Repr

/-- Embeds `SpanBatchCommon` (src/span.rs:118-123). -/
structure SpanBatchCommon where
  attributes : List (String × Value)
deriving DecidableEq, Repr

/-- Embeds `SpanBatch` (src/span.rs:158-165): a list of spans plus the
common data they share. The struct has exactly these two fields; in
particular it carries no identifier, and its `Sendable` impl in
src/span.rs:205-222 defines no `uuid` method although the trait
`client::Sendable` (src/client.rs:27-51) requires one. -/
structure SpanBatch where
  spans : List Span
  common : SpanBatchCommon
deriving DecidableEq, Repr

/-- Embeds `SpanBatch::split` (src/span.rs:214-221):
`new_batch_size = spans.len() / 2`; `spans.drain(new_batch_size..)` leaves
the first half in the original and moves the rest into the returned batch,
whose `common` is a clone of the original's. The first component is the
mutated original, the second the returned new batch. -/
def SpanBatch.split (b : SpanBatch) : SpanBatch × SpanBatch :=
  let new_batch_size := b.spans.length / 2
  ({ spans := b.spans.take new_batch_size, common := b.common },
   { spans := b.spans.drop new_batch_size, common := b.common })

/-- Embeds the overflow policy of the blocking worker loop
(src/client.rs:542-549): after a drain cycle collects `batches`, if their
number exceeds `queue_max` then `batches.drain(queue_max..)` removes every
batch past index `queue_max - 1`. Returns (retained batches, dropped
batches); the logged warning count is the length of the second component. -/
def drain_cycle (queue_max : Nat) (batches : List α) : List α × List α :=
  if queue_max < batches.length then
    (batches.take queue_max, batches.drop queue_max)
  else (batches, [])

/-- Environment behaviour at one iteration of the send loop: `request()`
fails (serialization or gzip error), the transport fails
(`client.request(..)` returns `Err`), or a response arrives. -/
inductive AttemptOutcome
  | encodeErr
  | transportErr
  | resp (r : Response)

/-- Observable events of the send loop: an HTTP request carrying a batch of
the given span count, or a sleep of the given duration (nanoseconds). -/
inductive Event
  | req (spanCount : Nat)
  | sleep (d : Nat)
deriving DecidableEq, Repr

/-- Embeds the loop body of `Client::send` (src/client.rs:393-433). The
loop walks the remaining backoff sequence; each iteration consults the
oracle at the current attempt counter. An encode error returns with no
request made; a transport error returns after the failed request; a `Done`
classification returns; `Retry` sleeps the chosen delay (the explicit
`Retry-After` duration if present, else the current backoff element) and
continues; `Split` halves the batch and re-enters `send` for both halves
with the full backoff sequence (`full`), then returns. The fuel bounds the
total number of iterations across recursive calls; every theorem below
supplies enough fuel that the bound is never hit. The counter threads the
oracle position through recursive calls. -/
def send_loop (oracle : Nat → AttemptOutcome) (full : List Nat) :
    Nat → SpanBatch → List Nat → Nat → List Event × Nat
  | 0, _, _, ctr => ([], ctr)
  | Nat.succ fuel, batch, backoff, ctr =>
    match backoff with
    | [] => ([], ctr)
    | d :: rest =>
      match oracle ctr with
      | AttemptOutcome.encodeErr => ([], ctr + 1)
      | AttemptOutcome.transportErr => ([Event.req batch.spans.length], ctr + 1)
      | AttemptOutcome.resp r =>
        match process_response r with
        | SendableState.Done => ([Event.req batch.spans.length], ctr + 1)
        | SendableState.Retry (some dur) =>
          (Event.req batch.spans.length :: Event.sleep dur ::
            (send_loop oracle full fuel batch rest (ctr + 1)).1,
           (send_loop oracle full fuel batch rest (ctr + 1)).2)
        | SendableState.Retry none =>
          (Event.req batch.spans.length :: Event.sleep d ::
            (send_loop oracle full fuel batch rest (ctr + 1)).1,
           (send_loop oracle full fuel batch rest (ctr + 1)).2)
        | SendableState.Split =>
          (Event.req batch.spans.length ::
            ((send_loop oracle full fuel batch.split.1 full (ctr + 1)).1 ++
             (send_loop oracle full fuel batch.split.2 full
                (send_loop oracle full fuel batch.split.1 full (ctr + 1)).2).1),
           (send_loop oracle full fuel batch.split.2 full
              (send_loop oracle full fuel batch.split.1 full (ctr + 1)).2).2)

/-- Embeds `Client::send` applied to a fresh batch: run the loop over the
whole backoff sequence starting at attempt counter 0. Its Rust return type
is `()`: the only output of the delivery path is the event trace, and no
error is ever handed back to the caller. -/
def send (oracle : Nat → AttemptOutcome) (backoff : List Nat) (fuel : Nat)
    (batch : SpanBatch) : List Event × Nat :=
  send_loop oracle backoff fuel batch backoff 0

/-- Number of HTTP requests recorded in an event trace. -/
def countRequests (events : List Event) : Nat :=
  (events.filter fun e =>
    match e with
    | Event.req _ => true
    | Event.sleep _ => false).length

/-- The empty span batch, `SpanBatch::new()`. -/
def emptyBatch : SpanBatch := { spans := [], common := { attributes := [] } }

/-- A plain 500 response with no headers. -/
def resp500 : Response := { status := 500, headers := [], body := "" }

/-- C2 counterexample: status 413 is not covered by the 2xx clause, the
non-retryable list, or the 429 clause, so the claim as stated puts it in
the catch-all "every other status code yields Retry(None)"; but
`process_response` classifies 413 as `Split`, whatever the headers and
body. -/
theorem process_response_413_not_retry_none_cex :
    (¬ (200 ≤ 413 ∧ 413 ≤ 299)) ∧
    (413 : Nat) ∉ [400, 401, 403, 404, 405, 409, 410, 411] ∧ (413 : Nat) ≠ 429 ∧
    process_response
      { status := 413, headers := [("content-type", "text/plain")], body := "too large" } =
      SendableState.Split ∧
    SendableState.Split ≠ SendableState.Retry none := by
  decide

/-- C2 amended: for every HTTP response, `process_response` returns `Done`
for every status in 200-299 and for every status in
{400, 401, 403, 404, 405, 409, 410, 411}; for status 429 it returns
`Retry(Some d)` exactly when the Retry-After header is present and parses
as integer seconds, and `Done` otherwise; and it returns `Retry(None)` for
every other status code except 413, which yields `Split` (covered by C3). -/
theorem process_response_classification (s : Nat) (headers : List (String × String))
    (body : String) :
    ((200 ≤ s ∧ s ≤ 299) → process_response ⟨s, headers, body⟩ = SendableState.Done) ∧
    (s ∈ [400, 401, 403, 404, 405, 409, 410, 411] →
      process_response ⟨s, headers, body⟩ = SendableState.Done) ∧
    (∀ d, s = 429 → extract_retry_after headers = some d →
      process_response ⟨s, headers, body⟩ = SendableState.Retry (some d)) ∧
    (s = 429 → extract_retry_after headers = none →
      process_response ⟨s, headers, body⟩ = SendableState.Done) ∧
    (¬ (200 ≤ s ∧ s ≤ 299) → s ∉ [400, 401, 403, 404, 405, 409, 410, 411] →
      s ≠ 413 → s ≠ 429 →
      process_response ⟨s, headers, body⟩ = SendableState.Retry none) := by
  refine ⟨?_, ?_, ?_, ?_, ?_⟩
  · intro h
    simp only [process_response, if_pos h]
  · intro h
    simp only [List.mem_cons, List.mem_singleton, List.not_mem_nil, or_false] at h
    have h2 : ¬ (200 ≤ s ∧ s ≤ 299) := by omega
    simp only [process_response, if_neg h2, if_pos h]
  · intro d hs hra
    subst hs
    simp only [process_response, if_neg (by omega : ¬ (200 ≤ 429 ∧ 429 ≤ 299)),
      if_neg (by omega :
        ¬ (429 = 400 ∨ 429 = 401 ∨ 429 = 403 ∨ 429 = 404 ∨ 429 = 405 ∨
           429 = 409 ∨ 429 = 410 ∨ 429 = 411)),
      if_neg (by omega : ¬ (429 = 413))]
    rw [if_pos trivial, hra]
  · intro hs hra
    subst hs
    simp only [process_response, if_neg (by omega : ¬ (200 ≤ 429 ∧ 429 ≤ 299)),
      if_neg (by omega :
        ¬ (429 = 400 ∨ 429 = 401 ∨ 429 = 403 ∨ 429 = 404 ∨ 429 = 405 ∨
           429 = 409 ∨ 429 = 410 ∨ 429 = 411)),
      if_neg (by omega : ¬ (429 = 413))]
    rw [if_pos trivial, hra]
  · intro h2xx hlist h413 h429
    simp only [List.mem_cons, List.mem_singleton, List.not_mem_nil, or_false] at hlist
    simp only [process_response, if_neg h2xx, if_neg hlist, if_neg h413, if_neg h429]

/-- C2 witness: concrete classifications obtained from the amended theorem,
including the spec's `Retry-After: 7` and non-numeric examples. -/
theorem process_response_classification_witness :
    process_response ⟨202, [], ""⟩ = SendableState.Done ∧
    process_response ⟨404, [], ""⟩ = SendableState.Done ∧
    process_response ⟨429, [("Retry-After", "7")], ""⟩ =
      SendableState.Retry (some (fromSecs 7)) ∧
    process_response ⟨429, [("Retry-After", "seven")], ""⟩ = SendableState.Done ∧
    process_response ⟨429, [], ""⟩ = SendableState.Done ∧
    process_response ⟨500, [], ""⟩ = SendableState.Retry none :=
  ⟨(process_response_classification 202 [] "").1 (by omega),
   (process_response_classification 404 [] "").2.1 (by decide),
   (process_response_classification 429 [("Retry-After", "7")] "").2.2.1
     (fromSecs 7) rfl (by decide),
   (process_response_classification 429 [("Retry-After", "seven")] "").2.2.2.1
     rfl (by decide),
   (process_response_classification 429 [] "").2.2.2.1 rfl (by decide),
   (process_response_classification 500 [] "").2.2.2.2 (by omega) (by decide)
     (by decide) (by decide)⟩

/-- C10: the classification is a function of the status code alone, except
at status 429 where it additionally depends only on the value of the
Retry-After header; the body and all other headers never influence it. -/
theorem process_response_noninterference (r1 r2 : Response)
    (hs : r1.status = r2.status)
    (hra : r1.status = 429 →
      headerGet r1.headers "retry-after" = headerGet r2.headers "retry-after") :
    process_response r1 = process_response r2 := by
  obtain ⟨s1, h1, b1⟩ := r1
  obtain ⟨s2, h2, b2⟩ := r2
  simp only at hs hra
  subst hs
  simp only [process_response]
  by_cases c1 : 200 ≤ s1 ∧ s1 ≤ 299
  · rw [if_pos c1, if_pos c1]
  rw [if_neg c1, if_neg c1]
  by_cases c2 : s1 = 400 ∨ s1 = 401 ∨ s1 = 403 ∨ s1 = 404 ∨ s1 = 405 ∨
      s1 = 409 ∨ s1 = 410 ∨ s1 = 411
  · rw [if_pos c2, if_pos c2]
  rw [if_neg c2, if_neg c2]
  by_cases c3 : s1 = 413
  · rw [if_pos c3, if_pos c3]
  rw [if_neg c3, if_neg c3]
  by_cases c4 : s1 = 429
  · rw [if_pos c4, if_pos c4]
    have hret : extract_retry_after h1 = extract_retry_after h2 := by
      simp only [extract_retry_after, hra c4]
    rw [hret]
  rw [if_neg c4, if_neg c4]

/-- C10 witness: two responses with the same status 500 but different
bodies and unrelated headers classify identically. -/
theorem process_response_noninterference_witness :
    process_response { status := 500, headers := [("x-served-by", "a")], body := "oops" } =
    process_response { status := 500, headers := [], body := "" } :=
  process_response_noninterference _ _ rfl (by decide)

/-- C6: what `SpanBatch::split` actually does: the two halves' record
counts sum to the original count, the smaller (or equal) half stays in the
original object (the first `len / 2` spans) while the new batch receives
the rest, and both halves carry exactly the pre-split common attributes.
`SpanBatch` consists of nothing but `spans` and `common`, so the two
outputs are fully determined by these equations: no identifier exists, and
nothing is regenerated on split. -/
theorem spanbatch_split_behavior (b : SpanBatch) :
    b.split.1.spans.length + b.split.2.spans.length = b.spans.length ∧
    b.split.1.spans.length ≤ b.split.2.spans.length ∧
    b.split.1 = { spans := b.spans.take (b.spans.length / 2), common := b.common } ∧
    b.split.2 = { spans := b.spans.drop (b.spans.length / 2), common := b.common } := by
  refine ⟨?_, ?_, rfl, rfl⟩
  · simp only [SpanBatch.split, List.length_take, List.length_drop]
    omega
  · simp only [SpanBatch.split, List.length_take, List.length_drop]
    omega

/-- C4 counterexample: with `blocking_queue_max = 1` and two batches drained
in arrival order (batch 0 the oldest, batch 1 the newest), the worker keeps
batch 0 and drops batch 1: the dropped excess is the newest-arriving item,
not the oldest as the claim states. -/
theorem drain_cycle_drops_newest_cex :
    drain_cycle 1 [0, 1] = ([0], [1]) ∧ ([1] : List Nat) ≠ [0] := by
  decide

/-- C4 amended: in every drain cycle collecting `n` items, if
`n ≤ queue_max` nothing is dropped and all `n` are delivered; if
`n > queue_max` exactly `n - queue_max` items are dropped (the logged
warning count) and the retained `queue_max` items are delivered, where the
dropped excess is the newest-arriving suffix of the drain order and the
retained items are the oldest-arriving prefix. -/
theorem drain_cycle_overflow_policy (queue_max : Nat) (batches : List α) :
    (batches.length ≤ queue_max → drain_cycle queue_max batches = (batches, [])) ∧
    (queue_max < batches.length →
      (drain_cycle queue_max batches).1 = batches.take queue_max ∧
      (drain_cycle queue_max batches).2 = batches.drop queue_max ∧
      (drain_cycle queue_max batches).1.length = queue_max ∧
      (drain_cycle queue_max batches).2.length = batches.length - queue_max ∧
      (drain_cycle queue_max batches).1 ++ (drain_cycle queue_max batches).2 = batches) := by
  constructor
  · intro h
    simp only [drain_cycle, if_neg (by omega : ¬ queue_max < batches.length)]
  · intro h
    simp only [drain_cycle, if_pos h]
    refine ⟨trivial, trivial, ?_, ?_, List.take_append_drop _ _⟩
    · rw [List.length_take]
      omega
    · rw [List.length_drop]

/-- C4 witness: a cycle within the maximum keeps everything; a cycle of 3
items with maximum 1 keeps the oldest item and drops the newest 2. -/
theorem drain_cycle_overflow_policy_witness :
    drain_cycle 2 [10, 20] = (([10, 20] : List Nat), []) ∧
    (drain_cycle 1 [7, 8, 9]).1 = ([7] : List Nat) ∧
    (drain_cycle 1 [7, 8, 9]).2 = ([8, 9] : List Nat) ∧
    (drain_cycle 1 [7, 8, 9]).2.length = 3 - 1 :=
  ⟨(drain_cycle_overflow_policy 2 [10, 20]).1 (by decide),
   ((drain_cycle_overflow_policy 1 [7, 8, 9]).2 (by decide)).1,
   ((drain_cycle_overflow_policy 1 [7, 8, 9]).2 (by decide)).2.1,
   ((drain_cycle_overflow_policy 1 [7, 8, 9]).2 (by decide)).2.2.2.1⟩

/-- C8 counterexample: with a backoff factor of one hour and retry maximum
34, computing element 33 evaluates `2_u32.pow(32)`, which exceeds
`u32::MAX`: under debug semantics the computation panics (`none`), and
under release semantics the power wraps to 0 so the element becomes a zero
delay — even though the exact product `3600s * 2^32` is perfectly
representable as a duration, so neither panic, wrap nor saturation is the
exact value. The code never saturates. -/
theorem backoff_overflow_cex :
    get_backoff_sequence_checked (fromSecs 3600) 34 = none ∧
    backoff_elem_wrapping (fromSecs 3600) 33 = some 0 ∧
    backoff_elem_saturating (fromSecs 3600) 33 = fromSecs 3600 * 2 ^ 32 ∧
    fromSecs 3600 * 2 ^ 32 ≤ durationMax ∧
    (0 : Nat) ≠ fromSecs 3600 * 2 ^ 32 := by
  decide

/-- Sequencing fallible element computations succeeds with the mapped list
when every element computation succeeds. -/
theorem optionMapM_some_of_forall {α β : Type} (f : α → Option β) (g : α → β) :
    ∀ l : List α, (∀ x ∈ l, f x = some (g x)) → optionMapM f l = some (l.map g)
  | [], _ => rfl
  | x :: xs, h => by
    have hx := h x (List.mem_cons_self x xs)
    have hxs := optionMapM_some_of_forall f g xs fun y hy => h y (List.mem_cons_of_mem x hy)
    simp [optionMapM, hx, hxs]

/-- Within a day-long factor and a retry maximum of at most 33, every
element computation of the backoff sequence stays in range under the
checked (debug) overflow semantics, so the checked sequence is exactly the
mathematical one. -/
theorem checked_eq_exact_of_bounds (factor m : Nat)
    (hf : factor ≤ 86400 * nanosPerSec) (hm : m ≤ 33) :
    get_backoff_sequence_checked factor m = some (get_backoff_sequence factor m) := by
  unfold get_backoff_sequence_checked get_backoff_sequence
  apply optionMapM_some_of_forall
  intro nr hnr
  rw [List.mem_range] at hnr
  by_cases h0 : nr = 0
  · subst h0
    rfl
  · have h1 : nr - 1 ≤ 31 := by omega
    have hp : (2 : Nat) ^ (nr - 1) ≤ 2 ^ 31 := Nat.pow_le_pow_right (by norm_num) h1
    have hlt : (2 : Nat) ^ (nr - 1) < 2 ^ 32 := lt_of_le_of_lt hp (by norm_num)
    have hdur : factor * 2 ^ (nr - 1) ≤ durationMax := by
      refine le_trans (Nat.mul_le_mul hf hp) ?_
      unfold durationMax nanosPerSec
      norm_num
    rw [backoff_elem_checked, if_neg h0, if_pos hlt, if_pos hdur, if_neg h0]

/-- C8 amended: for every backoff factor up to a day (which covers "factor
up to hours") and every retry maximum up to 33, the computation of the
backoff sequence neither panics nor wraps: every intermediate `2_u32.pow`
and duration multiplication stays in range and the checked computation
returns exactly the mathematical sequence. For retry maxima of 34 and
beyond the code panics (debug) or wraps the power to zero (release)
instead of saturating. -/
theorem backoff_no_overflow_within_bounds (factor m : Nat)
    (hf : factor ≤ 86400 * nanosPerSec) (hm : m ≤ 33) :
    get_backoff_sequence_checked factor m = some (get_backoff_sequence factor m) :=
  checked_eq_exact_of_bounds factor m hf hm

/-- C8 witness: the default-style configuration factor 2 s, maximum 6
computes without any overflow and matches the exact sequence. -/
theorem backoff_no_overflow_within_bounds_witness :
    get_backoff_sequence_checked (fromSecs 2) 6 =
      some (get_backoff_sequence (fromSecs 2) 6) :=
  backoff_no_overflow_within_bounds (fromSecs 2) 6
    (by norm_num [fromSecs, nanosPerSec]) (by norm_num)

/-- C5 counterexample: the claim's element formula does not hold for every
factor and maximum. Already at a 1-second factor and retry maximum 34, the
program returns no sequence at all: element 33 evaluates `2_u32.pow(32)`,
which overflows `u32`, so a debug build panics (checked computation
`none`) and a release build wraps that element to a zero delay — while the
claim asserts element 33 equals `1s * 2^32`, a perfectly representable
nonzero duration. -/
theorem backoff_sequence_unbounded_claim_cex :
    get_backoff_sequence_checked (fromSecs 1) 34 = none ∧
    backoff_elem_wrapping (fromSecs 1) 33 = some 0 ∧
    fromSecs 1 * 2 ^ 32 ≤ durationMax ∧
    (0 : Nat) ≠ fromSecs 1 * 2 ^ 32 := by
  decide

/-- C5 amended: within the bounds in which the source computation neither
panics nor wraps (factor up to a day, retry maximum up to 33 — see C8),
the program computes a backoff sequence of length `retries_max` whose
element 0 is the zero duration and whose element k, for every k ≥ 1, is
`factor * 2^(k-1)`; in particular, for a 2-second factor and maximum 6 it
computes exactly [0, 2, 4, 8, 16, 32] seconds, and for maximum 0 the empty
sequence. -/
theorem backoff_sequence_correct_within_bounds (factor m k : Nat)
    (hf : factor ≤ 86400 * nanosPerSec) (hm : m ≤ 33) :
    (∃ seq : List Nat,
      get_backoff_sequence_checked factor m = some seq ∧
      seq.length = m ∧
      seq.get? k =
        (if k < m then some (if k = 0 then 0 else factor * 2 ^ (k - 1)) else none)) ∧
    get_backoff_sequence_checked (fromSecs 2) 6 =
      some [0, fromSecs 2, fromSecs 4, fromSecs 8, fromSecs 16, fromSecs 32] ∧
    get_backoff_sequence_checked factor 0 = some [] := by
  refine ⟨⟨get_backoff_sequence factor m,
    checked_eq_exact_of_bounds factor m hf hm, ?_, ?_⟩, by decide, rfl⟩
  · simp [get_backoff_sequence]
  · by_cases hk : k < m
    · rw [if_pos hk, get_backoff_sequence, List.get?_map, List.get?_range hk,
        Option.map_some']
    · rw [if_neg hk]
      simp only [get_backoff_sequence, List.get?_eq_none, List.length_map,
        List.length_range]
      omega

/-- C5 witness: the theorem at factor 2 s, maximum 6 and index 3: the
computed sequence exists, has length 6, its element 3 is `2s * 2^2`, the
whole sequence is [0, 2, 4, 8, 16, 32] seconds, and maximum 0 computes the
empty sequence. -/
theorem backoff_sequence_correct_within_bounds_witness :
    (∃ seq : List Nat,
      get_backoff_sequence_checked (fromSecs 2) 6 = some seq ∧
      seq.length = 6 ∧
      seq.get? 3 =
        (if 3 < 6 then some (if 3 = 0 then 0 else fromSecs 2 * 2 ^ (3 - 1)) else none)) ∧
    get_backoff_sequence_checked (fromSecs 2) 6 =
      some [0, fromSecs 2, fromSecs 4, fromSecs 8, fromSecs 16, fromSecs 32] ∧
    get_backoff_sequence_checked (fromSecs 2) 0 = some [] :=
  backoff_sequence_correct_within_bounds (fromSecs 2) 6 3
    (by norm_num [fromSecs, nanosPerSec]) (by norm_num)

/-- C1: code behaviour at the claim's inputs. With retries_max = 0 the
backoff sequence is empty and `send` makes no HTTP request at all, although
the claim (and the builder's documentation) promise that the single initial
attempt is still made. With retries_max = 3, backoff factor 0 and a server
answering 500 to every attempt — the repository's own blocking `backoff`
integration test scenario, whose comment expects "the initial one and 3
retries" — exactly 3 requests are made in total, not 4: the loop body runs
once per backoff element and the sequence has exactly `retries_max`
elements. -/
theorem send_attempt_count_code_behavior :
    (∀ (oracle : Nat → AttemptOutcome) (fuel : Nat) (b : SpanBatch) (factor : Nat),
      send oracle (get_backoff_sequence factor 0) fuel b = ([], 0)) ∧
    countRequests
      (send (fun _ => AttemptOutcome.resp resp500) (get_backoff_sequence 0 3) 10
        emptyBatch).1 = 3 := by
  constructor
  · intro oracle fuel b factor
    cases fuel <;> rfl
  · decide

/-- C7: if building the request fails (serialization or gzip compression
failure) the batch is abandoned at once: no HTTP request is made and no
further attempt happens under the backoff sequence; if sending fails at the
transport level the batch is abandoned right after that single request. In
both cases `send` just returns — its Rust return type is `()`, so no error
is surfaced to the caller. -/
theorem send_local_failure_is_terminal (oracle : Nat → AttemptOutcome)
    (backoff : List Nat) (fuel : Nat) (b : SpanBatch) :
    (oracle 0 = AttemptOutcome.encodeErr → (send oracle backoff (fuel + 1) b).1 = []) ∧
    (oracle 0 = AttemptOutcome.transportErr → backoff ≠ [] →
      (send oracle backoff (fuel + 1) b).1 = [Event.req b.spans.length]) := by
  constructor
  · intro h
    cases backoff with
    | nil => rfl
    | cons d rest => simp [send, send_loop, h]
  · intro h hne
    cases backoff with
    | nil => exact absurd rfl hne
    | cons d rest => simp [send, send_loop, h]

/-- C7 witness: a first-attempt encode failure produces no request; a
first-attempt transport failure produces exactly one request and nothing
after it. -/
theorem send_local_failure_is_terminal_witness :
    (send (fun _ => AttemptOutcome.encodeErr) [0, fromSecs 5] 5 emptyBatch).1 = [] ∧
    (send (fun _ => AttemptOutcome.transportErr) [0, fromSecs 5] 5 emptyBatch).1 =
      [Event.req emptyBatch.spans.length] :=
  ⟨(send_local_failure_is_terminal (fun _ => AttemptOutcome.encodeErr)
      [0, fromSecs 5] 4 emptyBatch).1 rfl,
   (send_local_failure_is_terminal (fun _ => AttemptOutcome.transportErr)
      [0, fromSecs 5] 4 emptyBatch).2 rfl (by decide)⟩

/-- Helper for C9: when every attempt draws a response classified
`Retry(None)`, the loop over any remaining backoff suffix emits one request
and one sleep per element, the sleep using exactly that element. -/
theorem send_loop_all_retry_none (oracle : Nat → AttemptOutcome) (full : List Nat)
    (b : SpanBatch)
    (h : ∀ i, ∃ r, oracle i = AttemptOutcome.resp r ∧
      process_response r = SendableState.Retry none) :
    ∀ (backoff : List Nat) (fuel ctr : Nat), backoff.length ≤ fuel →
      (send_loop oracle full fuel b backoff ctr).1 =
        backoff.bind fun d => [Event.req b.spans.length, Event.sleep d] := by
  intro backoff
  induction backoff with
  | nil =>
    intro fuel ctr _
    cases fuel <;> simp [send_loop]
  | cons d rest ih =>
    intro fuel ctr hf
    cases fuel with
    | zero => simp at hf
    | succ f =>
      obtain ⟨r, hor, hpr⟩ := h ctr
      simp only [send_loop, hor, hpr, List.cons_bind]
      rw [ih f (ctr + 1) (by simpa using hf)]
      rfl

/-- C9: when every attempt is answered by a retryable status, the send
trace is request, sleep(element 0), request, sleep(element 1), ...,
request, sleep(last element): every attempt classified Retry is followed by
a sleep of the chosen delay, the wait between attempt k and attempt k+1 is
element k of the backoff sequence, and the last permitted attempt still
sleeps the final backoff delay before the batch is abandoned. -/
theorem send_retry_sleep_pattern (oracle : Nat → AttemptOutcome)
    (backoff : List Nat) (fuel : Nat) (b : SpanBatch)
    (hfuel : backoff.length ≤ fuel)
    (h : ∀ i, ∃ r, oracle i = AttemptOutcome.resp r ∧
      process_response r = SendableState.Retry none) :
    (send oracle backoff fuel b).1 =
      backoff.bind fun d => [Event.req b.spans.length, Event.sleep d] :=
  send_loop_all_retry_none oracle backoff b h backoff fuel 0 hfuel

/-- C9 witness: two 500 responses over the backoff sequence [0s, 2s] give
request, sleep 0, request, sleep 2s — the final sleep happens although it
was the last permitted attempt. -/
theorem send_retry_sleep_pattern_witness :
    (send (fun _ => AttemptOutcome.resp resp500) [0, fromSecs 2] 5 emptyBatch).1 =
      [Event.req 0, Event.sleep 0, Event.req 0, Event.sleep (fromSecs 2)] := by
  rw [send_retry_sleep_pattern (fun _ => AttemptOutcome.resp resp500)
    [0, fromSecs 2] 5 emptyBatch (by decide)
    (fun i => ⟨resp500, rfl, by decide⟩)]
  decide

/-- C3: a 413 response is always classified `Split`, whatever its headers
and body; and when the first attempt of `send` receives such a response the
batch is split into two halves whose record counts sum to the original
count, each half is handed to a recursive `send_loop` run that restarts
from element 0 of the full backoff sequence, and processing of the original
batch stops: the whole trace is the one 413 request followed by the two
halves' independent traces. -/
theorem response_413_split_behavior (hs : List (String × String)) (bs : String)
    (oracle : Nat → AttemptOutcome) (d : Nat) (rest : List Nat) (fuel : Nat)
    (b : SpanBatch)
    (h0 : oracle 0 = AttemptOutcome.resp { status := 413, headers := hs, body := bs }) :
    process_response { status := 413, headers := hs, body := bs } = SendableState.Split ∧
    b.split.1.spans.length + b.split.2.spans.length = b.spans.length ∧
    send oracle (d :: rest) (fuel + 1) b =
      (Event.req b.spans.length ::
        ((send_loop oracle (d :: rest) fuel b.split.1 (d :: rest) 1).1 ++
         (send_loop oracle (d :: rest) fuel b.split.2 (d :: rest)
            (send_loop oracle (d :: rest) fuel b.split.1 (d :: rest) 1).2).1),
       (send_loop oracle (d :: rest) fuel b.split.2 (d :: rest)
          (send_loop oracle (d :: rest) fuel b.split.1 (d :: rest) 1).2).2) := by
  have hsplit : process_response { status := 413, headers := hs, body := bs } =
      SendableState.Split := by
    simp [process_response]
  refine ⟨hsplit, ?_, ?_⟩
  · simp only [SpanBatch.split, List.length_take, List.length_drop]
    omega
  · simp only [send, send_loop, h0, hsplit, Nat.zero_add]

/-- A 413 response with no headers and an empty body. -/
def resp413 : Response := { status := 413, headers := [], body := "" }

/-- A 202 response with no headers and an empty body. -/
def resp202 : Response := { status := 202, headers := [], body := "" }

/-- An oracle answering 413 to the first request and 202 afterwards. -/
def oracle413 : Nat → AttemptOutcome := fun i =>
  if i = 0 then AttemptOutcome.resp resp413 else AttemptOutcome.resp resp202

/-- A concrete batch of two spans. -/
def twoSpanBatch : SpanBatch :=
  { spans := [{ id := "id0", trace_id := "tid0", timestamp := 1, attributes := [] },
              { id := "id1", trace_id := "tid1", timestamp := 2, attributes := [] }],
    common := { attributes := [("host", Value.Str "web")] } }

/-- C3 witness: the theorem at a concrete 413 first response, backoff [0],
fuel 3 and a two-span batch. -/
theorem response_413_split_behavior_witness :
    process_response { status := 413, headers := [], body := "" } = SendableState.Split ∧
    twoSpanBatch.split.1.spans.length + twoSpanBatch.split.2.spans.length =
      twoSpanBatch.spans.length ∧
    send oracle413 [0] 3 twoSpanBatch =
      (Event.req twoSpanBatch.spans.length ::
        ((send_loop oracle413 [0] 2 twoSpanBatch.split.1 [0] 1).1 ++
         (send_loop oracle413 [0] 2 twoSpanBatch.split.2 [0]
            (send_loop oracle413 [0] 2 twoSpanBatch.split.1 [0] 1).2).1),
       (send_loop oracle413 [0] 2 twoSpanBatch.split.2 [0]
          (send_loop oracle413 [0] 2 twoSpanBatch.split.1 [0] 1).2).2) :=
  response_413_split_behavior [] "" oracle413 0 [] 2 twoSpanBatch rfl

end NewRelicSDK
